import Mathlib

/-!
Verification of the dispatch router, name extractor, battle predictor
post-processing, type-effectiveness table and stat comparator of the
pokemon_ai repository, as a shallow embedding in Lean 4.

The embedding works on the text as a list of characters.  The Python code
applies regular expressions built from a small set of constructs: literal
words, the classes for word characters and whitespace, alternation with a
fixed preference order, greedy plus on a character class, and word
boundaries.  Every pattern of the source is translated into a dedicated
matching function built from those constructs; the functions below document
next to each definition which source pattern they translate.  Character
classes follow the ASCII reading of the Python classes, which is exact on
the ASCII inputs the source and its tests exercise.
-/

namespace Pokemon

/-- Python regular-expression class for a word character, ASCII reading. -/
def wordChar (c : Char) : Bool := c.isAlpha || c.isDigit || c == '_'

/-- Python regular-expression class for whitespace, ASCII reading. -/
def spaceChar (c : Char) : Bool :=
  c == ' ' || c == '\t' || c == '\n' || c == '\r' || c == '\x0b' || c == '\x0c'

/-- ASCII uppercase letter, the class written as A to Z in the source. -/
def isUpperA (c : Char) : Bool := 65 ≤ c.toNat && c.toNat ≤ 90

/-- ASCII lowercase letter, the class written as a to z in the source. -/
def isLowerA (c : Char) : Bool := 97 ≤ c.toNat && c.toNat ≤ 122

/-- Lowercasing of a string, modelling the Python lower method on ASCII text. -/
def lowerStr (s : String) : String := String.mk (s.toList.map Char.toLower)

/-- Python capitalize: first character uppercased, the rest lowercased. -/
def capitalizeStr (s : String) : String :=
  match s.toList with
  | [] => ""
  | c :: cs => String.mk (Char.toUpper c :: cs.map Char.toLower)

/-- Matches a literal sequence of characters at the head of the text and
returns the remainder on success. -/
def matchLit : List Char → List Char → Option (List Char)
  | [], rest => some rest
  | _ :: _, [] => none
  | p :: ps, c :: cs => if p == c then matchLit ps cs else none

/-- Greedy match of one or more whitespace characters at the head of the
text, returning the remainder.  All uses in the source are followed by a
token that cannot start with whitespace, so the greedy match is exact. -/
def matchSpaces1 : List Char → Option (List Char)
  | [] => none
  | c :: cs => if spaceChar c then some (cs.dropWhile spaceChar) else none

/-- Greedy match of one or more word characters at the head of the text,
returning the captured run and the remainder.  All uses in the source are
followed by a token that cannot match a word character, so the greedy
match is exact. -/
def takeWord1 (l : List Char) : Option (List Char × List Char) :=
  match l with
  | [] => none
  | c :: cs =>
    if wordChar c then some (c :: cs.takeWhile wordChar, cs.dropWhile wordChar)
    else none

/-- Word boundary test against the character preceding the current
position; none stands for the start of the text. -/
def nonWordB : Option Char → Bool
  | none => true
  | some c => !wordChar c

/-- Word boundary test against the text that follows a match. -/
def headNonWord : List Char → Bool
  | [] => true
  | c :: _ => !wordChar c

/-- Does the text contain the needle as a contiguous substring, the Python
in operator on strings. -/
def containsSubstr (needle : List Char) : List Char → Bool
  | [] => (matchLit needle []).isSome
  | c :: cs => (matchLit needle (c :: cs)).isSome || containsSubstr needle cs

/-- One search attempt of a keyword enclosed in word boundaries at the
current position. -/
def wordAt (kw : List Char) (prev : Option Char) (l : List Char) : Bool :=
  nonWordB prev &&
    (match matchLit kw l with
     | some rest => headNonWord rest
     | none => false)

/-- Search for a keyword enclosed in word boundaries anywhere in the text,
tracking the previous character for the left boundary. -/
def containsWordFrom (kw : List Char) : Option Char → List Char → Bool
  | prev, [] => wordAt kw prev []
  | prev, c :: cs => wordAt kw prev (c :: cs) || containsWordFrom kw (some c) cs

/-- Search for a keyword enclosed in word boundaries, as the source writes
with backslash b on both sides. -/
def containsWord (kw : String) (l : List Char) : Bool :=
  containsWordFrom kw.toList none l

/-- One search attempt of a keyword with an optional trailing letter s,
enclosed in word boundaries, at the current position. -/
def wordOptSAt (kw : List Char) (prev : Option Char) (l : List Char) : Bool :=
  nonWordB prev &&
    (match matchLit kw l with
     | some rest =>
       (match rest with
        | 's' :: rest2 => headNonWord rest2
        | _ => false) || headNonWord rest
     | none => false)

/-- Search for a keyword with an optional trailing letter s enclosed in
word boundaries, tracking the previous character for the left boundary. -/
def containsWordOptSFrom (kw : List Char) : Option Char → List Char → Bool
  | prev, [] => wordOptSAt kw prev []
  | prev, c :: cs => wordOptSAt kw prev (c :: cs) || containsWordOptSFrom kw (some c) cs

/-- Search for a keyword with an optional trailing letter s enclosed in
word boundaries, covering the source patterns for types, moves and
evolutions. -/
def containsWordOptS (kw : String) (l : List Char) : Bool :=
  containsWordOptSFrom kw.toList none l

/-- Leftmost search: try the matcher at every position from left to right
and return the first success, the semantics of re.search. -/
def scanFirst {α : Type} (f : List Char → Option α) : List Char → Option α
  | [] => f []
  | c :: cs => (f (c :: cs)).orElse (fun _ => scanFirst f cs)

/-- Existence search: does the matcher succeed at any position. -/
def scanAny (f : List Char → Bool) : List Char → Bool
  | [] => f []
  | c :: cs => f (c :: cs) || scanAny f cs

/-! Type effectiveness, from PokemonExpertAgent.get_type_effectiveness.
Multipliers are modelled as exact rationals; every value of the table is
0, 0.5 or 2, all exactly representable by the Python floats of the
source. -/

/-- Result record of get_type_effectiveness. -/
structure EffectivenessResult where
  attacking_type : String
  defending_types : List String
  multiplier : ℚ
  effectiveness : String
deriving DecidableEq, Repr

/-- The effectiveness chart of PokemonExpertAgent.get_type_effectiveness,
transcribed row by row and entry by entry from the source. -/
def effectivenessChart : List (String × List (String × ℚ)) :=
  [ ("normal", [("fighting", 2), ("ghost", 0)]),
    ("fire", [("grass", 2), ("ice", 2), ("bug", 2), ("steel", 2),
              ("fire", 1/2), ("water", 1/2), ("rock", 1/2), ("dragon", 1/2)]),
    ("water", [("fire", 2), ("ground", 2), ("rock", 2),
               ("water", 1/2), ("grass", 1/2), ("dragon", 1/2)]),
    ("electric", [("water", 2), ("flying", 2),
                  ("electric", 1/2), ("grass", 1/2), ("dragon", 1/2),
                  ("ground", 0)]),
    ("grass", [("water", 2), ("ground", 2), ("rock", 2),
               ("fire", 1/2), ("grass", 1/2), ("poison", 1/2), ("flying", 1/2),
               ("bug", 1/2), ("dragon", 1/2), ("steel", 1/2)]),
    ("ice", [("grass", 2), ("ground", 2), ("flying", 2), ("dragon", 2),
             ("fire", 1/2), ("water", 1/2), ("ice", 1/2), ("steel", 1/2)]),
    ("fighting", [("normal", 2), ("ice", 2), ("rock", 2), ("dark", 2), ("steel", 2),
                  ("poison", 1/2), ("flying", 1/2), ("psychic", 1/2), ("bug", 1/2), ("fairy", 1/2),
                  ("ghost", 0)]),
    ("poison", [("grass", 2), ("fairy", 2),
                ("poison", 1/2), ("ground", 1/2), ("rock", 1/2), ("ghost", 1/2),
                ("steel", 0)]),
    ("ground", [("fire", 2), ("electric", 2), ("poison", 2), ("rock", 2), ("steel", 2),
                ("grass", 1/2), ("bug", 1/2),
                ("flying", 0)]),
    ("flying", [("grass", 2), ("fighting", 2), ("bug", 2),
                ("electric", 1/2), ("rock", 1/2), ("steel", 1/2)]),
    ("psychic", [("fighting", 2), ("poison", 2),
                 ("psychic", 1/2), ("steel", 1/2),
                 ("dark", 0)]),
    ("bug", [("grass", 2), ("psychic", 2), ("dark", 2),
             ("fire", 1/2), ("fighting", 1/2), ("poison", 1/2), ("flying", 1/2),
             ("ghost", 1/2), ("steel", 1/2), ("fairy", 1/2)]),
    ("rock", [("fire", 2), ("ice", 2), ("flying", 2), ("bug", 2),
              ("fighting", 1/2), ("ground", 1/2), ("steel", 1/2)]),
    ("ghost", [("psychic", 2), ("ghost", 2),
               ("dark", 1/2),
               ("normal", 0)]),
    ("dragon", [("dragon", 2),
                ("steel", 1/2),
                ("fairy", 0)]),
    ("dark", [("psychic", 2), ("ghost", 2),
              ("fighting", 1/2), ("dark", 1/2), ("fairy", 1/2)]),
    ("steel", [("ice", 2), ("rock", 2), ("fairy", 2),
               ("fire", 1/2), ("water", 1/2), ("electric", 1/2), ("steel", 1/2)]),
    ("fairy", [("fighting", 2), ("dragon", 2), ("dark", 2),
               ("fire", 1/2), ("poison", 1/2), ("steel", 1/2)]) ]

/-- One step of the multiplier loop: multiply by the chart entry when the
defending type is present in the row, otherwise leave the multiplier
unchanged, exactly as the membership test of the source does. -/
def applyLookup (row : List (String × ℚ)) (m : ℚ) (d : String) : ℚ :=
  match row.lookup d with
  | some v => m * v
  | none => m

/-- Shallow embedding of PokemonExpertAgent.get_type_effectiveness:
normalize both inputs to lowercase, fold the chart lookups over the
defending types starting from 1, then classify the multiplier. -/
def getTypeEffectiveness (attackingType : String) (defendingTypes : List String) :
    EffectivenessResult :=
  let a := lowerStr attackingType
  let ds := defendingTypes.map lowerStr
  let row := (effectivenessChart.lookup a).getD []
  let multiplier := ds.foldl (applyLookup row) 1
  let eff :=
    if 1 < multiplier then "super effective"
    else if multiplier < 1 ∧ 0 < multiplier then "not very effective"
    else if multiplier = 0 then "no effect"
    else "neutral"
  ⟨capitalizeStr a, ds.map capitalizeStr, multiplier, eff⟩

/-- Per-pair chart factor as the specification describes it: the chart
lookup for the attacking and defending types, both normalized
case-insensitively, defaulting to 1 when the pair is absent. -/
def chartFactor (attackingType defendingType : String) : ℚ :=
  ((((effectivenessChart.lookup (lowerStr attackingType)).getD []).lookup
      (lowerStr defendingType))).getD 1

/-! Stat comparison, from PokemonExpertAgent.analyze_stats_comparison.
Python dictionaries are modelled as association lists in insertion order
with distinct keys. -/

/-- Result record of analyze_stats_comparison. -/
structure StatsComparison where
  pokemon1_total : Int
  pokemon2_total : Int
  pokemon1_advantages : List String
  pokemon2_advantages : List String
  pokemon1_higher_total : Bool
  pokemon2_higher_total : Bool
  speed_advantage : Option String
deriving DecidableEq, Repr

/-- Shallow embedding of PokemonExpertAgent.analyze_stats_comparison. -/
def analyzeStatsComparison (stats1 stats2 : List (String × Int)) : StatsComparison :=
  let total1 := (stats1.map Prod.snd).sum
  let total2 := (stats2.map Prod.snd).sum
  let advantages1 := stats1.filterMap (fun kv =>
    match stats2.lookup kv.1 with
    | some v2 => if v2 < kv.2 then some kv.1 else none
    | none => none)
  let advantages2 := stats1.filterMap (fun kv =>
    match stats2.lookup kv.1 with
    | some v2 => if kv.2 < v2 then some kv.1 else none
    | none => none)
  let speedAdv : Option String :=
    match stats1.lookup "speed", stats2.lookup "speed" with
    | some s1, some s2 =>
      if s2 < s1 then some "pokemon1"
      else if s1 < s2 then some "pokemon2"
      else none
    | _, _ => none
  ⟨total1, total2, advantages1, advantages2,
   decide (total2 < total1), decide (total1 < total2), speedAdv⟩

/-! Battle verdict post-processing, from the tail of
PokemonExpertAgent.determine_winner.  The language-model reply is the
finalAnswer argument; the source derives the winner purely from that text
and the two input names. -/

/-- Result record of determine_winner. -/
structure BattleResult where
  winner : String
  reasoning : String
deriving DecidableEq, Repr

/-- The sentinel string the source returns when no winner can be read off
the reply text. -/
def cantDetermineSentinel : String :=
  "can" ++ String.mk [ '\'' ] ++ "t determine who is the winner"

/-- The test the source applies to each name: the lowercased name occurs
in the lowercased reply and the substring win occurs in the lowercased
reply. -/
def mentionedWithWin (finalAnswer name : String) : Bool :=
  containsSubstr (lowerStr name).toList (lowerStr finalAnswer).toList &&
  containsSubstr "win".toList (lowerStr finalAnswer).toList

/-- Shallow embedding of the post-processing of
PokemonExpertAgent.determine_winner: first name checked first, then the
second, otherwise the sentinel; the reply text is returned as reasoning
unchanged. -/
def determineWinner (pokemon1 pokemon2 finalAnswer : String) : BattleResult :=
  if mentionedWithWin finalAnswer pokemon1 then ⟨pokemon1, finalAnswer⟩
  else if mentionedWithWin finalAnswer pokemon2 then ⟨pokemon2, finalAnswer⟩
  else ⟨cantDetermineSentinel, finalAnswer⟩

/-! Name extraction and question classification, from SupervisorAgent.
The patterns run case-insensitively, which on ASCII text is the same as
running them over the lowercased text; the captured groups are lowercased
by the source afterwards, so matching over the lowercased text returns
the same result. -/

/-- After a separator keyword of the battle patterns: one or more spaces
then a captured word, the common continuation of the alternations. -/
def spacesThenWord (l : List Char) : Option (List Char) :=
  match matchSpaces1 l with
  | some r => (takeWord1 r).map Prod.fst
  | none => none

/-- The separator alternation vs with an optional dot, or versus, followed
by spaces and a captured word.  The two alternatives can never match at
the same position, and when the optional dot is taken the continuation is
retried without it on failure, as the backtracking of the source engine
does. -/
def sepVsThenWord (l : List Char) : Option (List Char) :=
  match matchLit "vs".toList l with
  | some r =>
    (match r with
     | '.' :: r2 => (spacesThenWord r2).orElse (fun _ => spacesThenWord r)
     | _ => spacesThenWord r)
  | none =>
    match matchLit "versus".toList l with
    | some r => spacesThenWord r
    | none => none

/-- The separator alternation and, vs with an optional dot, or versus,
followed by spaces and a captured word; the three alternatives can never
match at the same position. -/
def sepAndVsThenWord (l : List Char) : Option (List Char) :=
  match matchLit "and".toList l with
  | some r => spacesThenWord r
  | none => sepVsThenWord l

/-- First battle pattern at one position: between or of, spaces, a
captured word, spaces, the separator alternation, spaces, a captured
word. -/
def pat1At (l : List Char) : Option (List Char × List Char) :=
  let afterKW : List Char → Option (List Char × List Char) := fun r =>
    match matchSpaces1 r with
    | some r2 =>
      match takeWord1 r2 with
      | some (g1, r3) =>
        match matchSpaces1 r3 with
        | some r4 => (sepAndVsThenWord r4).map (fun g2 => (g1, g2))
        | none => none
      | none => none
    | none => none
  match matchLit "between".toList l with
  | some r => afterKW r
  | none =>
    match matchLit "of".toList l with
    | some r => afterKW r
    | none => none

/-- Second battle pattern at one position: a captured word, spaces, vs or
versus, spaces, a captured word. -/
def pat2At (l : List Char) : Option (List Char × List Char) :=
  match takeWord1 l with
  | some (g1, r1) =>
    match matchSpaces1 r1 with
    | some r2 => (sepVsThenWord r2).map (fun g2 => (g1, g2))
    | none => none
  | none => none

/-- The modal alternation would, will or could; no two of the alternatives
can match at the same position. -/
def modalAt (l : List Char) : Option (List Char) :=
  match matchLit "would".toList l with
  | some r => some r
  | none =>
    match matchLit "will".toList l with
    | some r => some r
    | none => matchLit "could".toList l

/-- The alternation beat, defeat, or win against, followed by spaces and a
captured word; no two of the alternatives can match at the same
position. -/
def beatAltThenWord (l : List Char) : Option (List Char) :=
  match matchLit "beat".toList l with
  | some r => spacesThenWord r
  | none =>
    match matchLit "defeat".toList l with
    | some r => spacesThenWord r
    | none =>
      match matchLit "win against".toList l with
      | some r => spacesThenWord r
      | none => none

/-- Third battle pattern at one position: a modal, spaces, a captured
word, spaces, then beat, defeat or win against, spaces, a captured
word. -/
def pat3At (l : List Char) : Option (List Char × List Char) :=
  match modalAt l with
  | some r1 =>
    match matchSpaces1 r1 with
    | some r2 =>
      match takeWord1 r2 with
      | some (g1, r3) =>
        match matchSpaces1 r3 with
        | some r4 => (beatAltThenWord r4).map (fun g2 => (g1, g2))
        | none => none
      | none => none
    | none => none
  | none => none

/-- Fourth battle pattern at one position: a modal, spaces, a captured
word, spaces, or, spaces, a captured word, spaces, win. -/
def pat4At (l : List Char) : Option (List Char × List Char) :=
  match modalAt l with
  | some r1 =>
    match matchSpaces1 r1 with
    | some r2 =>
      match takeWord1 r2 with
      | some (g1, r3) =>
        match matchSpaces1 r3 with
        | some r4 =>
          match matchLit "or".toList r4 with
          | some r5 =>
            match matchSpaces1 r5 with
            | some r6 =>
              match takeWord1 r6 with
              | some (g2, r7) =>
                match matchSpaces1 r7 with
                | some r8 =>
                  if (matchLit "win".toList r8).isSome then some (g1, g2) else none
                | none => none
              | none => none
            | none => none
          | none => none
        | none => none
      | none => none
    | none => none
  | none => none

/-- Capitalized-word tokens of the text, in order: an ASCII uppercase
letter followed by a maximal nonempty run of ASCII lowercase letters,
enclosed in word boundaries.  Matches of this pattern can never overlap,
so collecting a match at every position is the same as the non-overlapping
scan of re.findall. -/
def capWordsFrom : Option Char → List Char → List (List Char)
  | _, [] => []
  | prev, c :: cs =>
    let rest := capWordsFrom (some c) cs
    if nonWordB prev && isUpperA c then
      let run := cs.takeWhile isLowerA
      if !run.isEmpty && headNonWord (cs.drop run.length) then
        (c :: run) :: rest
      else rest
    else rest

/-- Shallow embedding of SupervisorAgent._extract_pokemon_names: the four
battle patterns tried in order with a leftmost search each, then the
capitalized-word fallback needing at least two tokens, else empty. -/
def extractPokemonNames (question : String) : List String :=
  let lq := question.toList.map Char.toLower
  match scanFirst pat1At lq with
  | some (g1, g2) => [String.mk g1, String.mk g2]
  | none =>
    match scanFirst pat2At lq with
    | some (g1, g2) => [String.mk g1, String.mk g2]
    | none =>
      match scanFirst pat3At lq with
      | some (g1, g2) => [String.mk g1, String.mk g2]
      | none =>
        match scanFirst pat4At lq with
        | some (g1, g2) => [String.mk g1, String.mk g2]
        | none =>
          match capWordsFrom none question.toList with
          | w1 :: w2 :: _ =>
            [String.mk (w1.map Char.toLower), String.mk (w2.map Char.toLower)]
          | _ => []

/-- First single-name pattern at one position: about or of, spaces, a
captured word, then a space, an apostrophe or the end of the text. -/
def patAboutAt (l : List Char) : Option (List Char) :=
  let afterKW : List Char → Option (List Char) := fun r =>
    match matchSpaces1 r with
    | some r2 =>
      match takeWord1 r2 with
      | some (g, r3) =>
        match r3 with
        | [] => some g
        | c :: _ => if spaceChar c || c == '\'' then some g else none
      | none => none
    | none => none
  match matchLit "about".toList l with
  | some r => afterKW r
  | none =>
    match matchLit "of".toList l with
    | some r => afterKW r
    | none => none

/-- Second single-name pattern at one position: is or are, spaces, a
captured word, then an apostrophe with the letter s, or a space. -/
def patIsAreAt (l : List Char) : Option (List Char) :=
  let afterKW : List Char → Option (List Char) := fun r =>
    match matchSpaces1 r with
    | some r2 =>
      match takeWord1 r2 with
      | some (g, r3) =>
        match r3 with
        | '\'' :: 's' :: _ => some g
        | c :: _ => if spaceChar c then some g else none
        | [] => none
      | none => none
    | none => none
  match matchLit "is".toList l with
  | some r => afterKW r
  | none =>
    match matchLit "are".toList l with
    | some r => afterKW r
    | none => none

/-- Shallow embedding of SupervisorAgent._extract_pokemon_name: the two
patterns tried in order with a leftmost search each, then the first
capitalized-word token, else the empty string. -/
def extractPokemonName (question : String) : String :=
  let lq := question.toList.map Char.toLower
  match scanFirst patAboutAt lq with
  | some g => String.mk g
  | none =>
    match scanFirst patIsAreAt lq with
    | some g => String.mk g
    | none =>
      match capWordsFrom none question.toList with
      | w :: _ => String.mk (w.map Char.toLower)
      | [] => ""

/-- The who-would-win pattern of check_pokemon_battle at one position:
who, spaces, would, spaces, then win, lose, or be followed by spaces and
stronger. -/
def winPatternAt (l : List Char) : Bool :=
  match matchLit "who".toList l with
  | some r1 =>
    match matchSpaces1 r1 with
    | some r2 =>
      match matchLit "would".toList r2 with
      | some r3 =>
        match matchSpaces1 r3 with
        | some r4 =>
          (matchLit "win".toList r4).isSome ||
          (matchLit "lose".toList r4).isSome ||
          (match matchLit "be".toList r4 with
           | some r5 =>
             match matchSpaces1 r5 with
             | some r6 => (matchLit "stronger".toList r6).isSome
             | none => false
           | none => false)
        | none => false
      | none => false
    | none => false
  | none => false

/-- Shallow embedding of SupervisorAgent.check_pokemon_battle: the battle
keyword list, the versus pattern, and the who-would-win pattern.  The
keyword vs with an optional dot between word boundaries matches exactly
when vs between word boundaries matches, since the dot is itself a word
boundary. -/
def checkPokemonBattle (question : String) : Bool :=
  let lq := question.toList.map Char.toLower
  (["battle", "fight", "win", "lose", "vs", "versus", "stronger",
    "weaker", "effective", "advantage", "beat"].any
      (fun kw => containsWord kw lq)) ||
  (scanFirst pat2At lq).isSome ||
  scanAny winPatternAt lq

/-- Data pattern one at one position: what, spaces, are or is, spaces,
the, spaces, optionally base and spaces, then stats. -/
def dataPat1At (l : List Char) : Bool :=
  match matchLit "what".toList l with
  | some r1 =>
    match matchSpaces1 r1 with
    | some r2 =>
      let afterAux : List Char → Bool := fun r3 =>
        match matchSpaces1 r3 with
        | some r4 =>
          match matchLit "the".toList r4 with
          | some r5 =>
            match matchSpaces1 r5 with
            | some r6 =>
              (match matchLit "base".toList r6 with
               | some r7 =>
                 match matchSpaces1 r7 with
                 | some r8 => (matchLit "stats".toList r8).isSome
                 | none => false
               | none => false) ||
              (matchLit "stats".toList r6).isSome
            | none => false
          | none => false
        | none => false
      (match matchLit "are".toList r2 with
       | some r3 => afterAux r3
       | none =>
         match matchLit "is".toList r2 with
         | some r3 => afterAux r3
         | none => false)
    | none => false
  | none => false

/-- Three-word chain helper for the data patterns: the three literals
separated by runs of spaces. -/
def threeWordsAt (w1 w2 w3 : String) (l : List Char) : Bool :=
  match matchLit w1.toList l with
  | some r1 =>
    match matchSpaces1 r1 with
    | some r2 =>
      match matchLit w2.toList r2 with
      | some r3 =>
        match matchSpaces1 r3 with
        | some r4 => (matchLit w3.toList r4).isSome
        | none => false
      | none => false
    | none => false
  | none => false

/-- Scan of the dot-star gap of the weigh pattern: the literal must occur
later in the text with no newline in between. -/
def dotStarHas (needle : List Char) : List Char → Bool
  | [] => (matchLit needle []).isSome
  | c :: cs =>
    (matchLit needle (c :: cs)).isSome ||
    (if c == '\n' then false else dotStarHas needle cs)

/-- Data pattern four at one position: how, spaces, much, spaces, does,
then any characters other than a newline, then weigh. -/
def dataPat4At (l : List Char) : Bool :=
  match matchLit "how".toList l with
  | some r1 =>
    match matchSpaces1 r1 with
    | some r2 =>
      match matchLit "much".toList r2 with
      | some r3 =>
        match matchSpaces1 r3 with
        | some r4 =>
          match matchLit "does".toList r4 with
          | some r5 => dotStarHas "weigh".toList r5
          | none => false
        | none => false
      | none => false
    | none => false
  | none => false

/-- Data pattern five at one position: what, spaces, abilities, spaces,
then does or do. -/
def dataPat5At (l : List Char) : Bool :=
  match matchLit "what".toList l with
  | some r1 =>
    match matchSpaces1 r1 with
    | some r2 =>
      match matchLit "abilities".toList r2 with
      | some r3 =>
        match matchSpaces1 r3 with
        | some r4 =>
          (matchLit "does".toList r4).isSome || (matchLit "do".toList r4).isSome
        | none => false
      | none => false
    | none => false
  | none => false

/-- Data pattern six at one position: show, tell or give, then spaces, me,
spaces, information, spaces, about; no two of the leading alternatives can
match at the same position. -/
def dataPat6At (l : List Char) : Bool :=
  let afterKW : List Char → Bool := fun r1 =>
    match matchSpaces1 r1 with
    | some r2 =>
      match matchLit "me".toList r2 with
      | some r3 =>
        match matchSpaces1 r3 with
        | some r4 =>
          match matchLit "information".toList r4 with
          | some r5 =>
            match matchSpaces1 r5 with
            | some r6 => (matchLit "about".toList r6).isSome
            | none => false
          | none => false
        | none => false
      | none => false
    | none => false
  match matchLit "show".toList l with
  | some r => afterKW r
  | none =>
    match matchLit "tell".toList l with
    | some r => afterKW r
    | none =>
      match matchLit "give".toList l with
      | some r => afterKW r
      | none => false

/-- Shallow embedding of SupervisorAgent.check_pokemon_data: the six data
retrieval patterns searched over the lowercased question. -/
def checkPokemonData (question : String) : Bool :=
  let lq := question.toList.map Char.toLower
  scanAny dataPat1At lq ||
  scanAny (threeWordsAt "what" "type" "is") lq ||
  scanAny (threeWordsAt "how" "tall" "is") lq ||
  scanAny dataPat4At lq ||
  scanAny dataPat5At lq ||
  scanAny dataPat6At lq

/-- Shallow embedding of SupervisorAgent.check_pokemon_question: the
keyword list with word boundaries, three of them with an optional plural
s, then the two plain substring checks. -/
def checkPokemonQuestion (question : String) : Bool :=
  let lq := question.toList.map Char.toLower
  containsWord "pokemon" lq ||
  containsWord "pokedex" lq ||
  containsWord "base stats" lq ||
  containsWord "abilities" lq ||
  containsWordOptS "type" lq ||
  containsWordOptS "move" lq ||
  containsWordOptS "evolution" lq ||
  containsWord "height" lq ||
  containsWord "weight" lq ||
  containsSubstr "how tall is".toList lq ||
  containsSubstr "how much does".toList lq

/-- The routing target chosen by SupervisorAgent._classify_question. -/
inductive NextStep
  | battle_analysis
  | pokemon_data
  | pokemon_research
  | direct_answer
deriving DecidableEq, Repr

/-- Shallow embedding of the routing decision of
SupervisorAgent._classify_question, lines 256 to 278 of the source.  The
reply of the classification agent call is extracted there but never used
by the decision, so the decision is a pure function of the question. -/
def classifyQuestion (question : String) : NextStep :=
  if checkPokemonBattle question then
    if 2 ≤ (extractPokemonNames question).length then NextStep.battle_analysis
    else NextStep.pokemon_research
  else if checkPokemonData question then
    if extractPokemonName question ≠ "" then NextStep.pokemon_data
    else NextStep.pokemon_research
  else if checkPokemonQuestion question then NextStep.pokemon_research
  else NextStep.direct_answer

/-- Action of the battle analysis handler node. -/
inductive BattleStep
  | invoke_expert (pokemon1 pokemon2 : String)
  | fallback_research
deriving DecidableEq, Repr

/-- Shallow embedding of the guard of SupervisorAgent._battle_analysis:
with fewer than two names the handler redirects to the research path,
otherwise it invokes determine_winner on the first two names. -/
def battleAnalysisStep : List String → BattleStep
  | p1 :: p2 :: _ => BattleStep.invoke_expert p1 p2
  | _ => BattleStep.fallback_research

/-! Router variant with structured classification.  The specification
describes a final router variant whose classification call returns a
category together with extracted names and a confidence score, and whose
failures are recovered at the router boundary; tests/test_supervisor.py
mocks exactly that structured classifier, but the variant itself is not
among the source files, so it is modelled from the specification. -/

/-- The four routing categories of the dispatch router. -/
inductive Category
  | direct_answer
  | pokemon_research
  | pokemon_data
  | battle_analysis
deriving DecidableEq, Repr

/-- Modelled from the spec: the classification record produced by the
structured classification call of the final router variant, which is not
among the source files; only its mock in tests/test_supervisor.py is.
Fields follow section 3 of the specification. -/
structure Classification where
  category : Category
  extracted_names : List String
  confidence : ℚ
deriving DecidableEq, Repr

/-- Modelled from the spec: the override rules of section 4.5 applied to a
returned classification.  Confidence below 0.7 overrides to research;
battle analysis with fewer than two names overrides to research; a data
lookup with no extracted name overrides to research; otherwise the
returned category stands. -/
def routeClassification (c : Classification) : Category :=
  if c.confidence < 7/10 then Category.pokemon_research
  else if c.category = Category.battle_analysis ∧ c.extracted_names.length < 2 then
    Category.pokemon_research
  else if c.category = Category.pokemon_data ∧ c.extracted_names = [] then
    Category.pokemon_research
  else c.category

/-- Modelled from the spec: the router boundary around the classification
call of the final router variant.  A failed call, modelled as the error
case, is recovered locally by routing to research; a successful call is
routed through the override rules.  The function is total, so no failure
reaches the caller. -/
def routeOutcome : Except String Classification → Category
  | Except.error _ => Category.pokemon_research
  | Except.ok c => routeClassification c

/-- Modelled from the spec: a handler result as a record of named string
fields, the dictionary shape the handlers of the source return. -/
structure HandlerResult where
  fields : List (String × String)
deriving DecidableEq, Repr

/-- Field access on a handler result, the dictionary get of the source. -/
def getField (r : HandlerResult) (k : String) : Option String :=
  r.fields.lookup k

/-- Modelled from the spec: the stringification applied when a handler
result carries neither a winner nor an answer field; the specification
fixes only that the whole result is rendered into the answer text. -/
def stringifyResult (r : HandlerResult) : String :=
  String.intercalate ", " (r.fields.map (fun kv => kv.1 ++ ": " ++ kv.2))

/-- The uniform response shape returned to the caller. -/
structure Response where
  answer : String
  reasoning : Option String
deriving DecidableEq, Repr

/-- Modelled from the spec: the normalization rule of section 4.5 applied
after handler completion, part of the final router variant that is not
among the source files.  A result with both a winner and a reasoning
field synthesizes the battle sentence and passes the reasoning through
verbatim; a result with an answer field passes through unchanged;
anything else is stringified into the answer with empty reasoning. -/
def normalizeResult (r : HandlerResult) : Response :=
  match getField r "winner", getField r "reasoning" with
  | some w, some rsn => ⟨w ++ " would win the battle.", some rsn⟩
  | _, _ =>
    match getField r "answer" with
    | some a => ⟨a, getField r "reasoning"⟩
    | none => ⟨stringifyResult r, none⟩

/-! Helper lemmas. -/

lemma applyLookup_eq_mul (row : List (String × ℚ)) (m : ℚ) (d : String) :
    applyLookup row m d = m * ((row.lookup d).getD 1) := by
  unfold applyLookup
  cases row.lookup d <;> simp

lemma foldl_applyLookup (row : List (String × ℚ)) (ds : List String) (m : ℚ) :
    ds.foldl (applyLookup row) m = m * (ds.map (fun d => ((row.lookup d).getD 1))).prod := by
  induction ds generalizing m with
  | nil => simp
  | cons d ds ih =>
    simp only [List.foldl_cons, List.map_cons, List.prod_cons, ih, applyLookup_eq_mul]
    ring

lemma label_thresholds (m : ℚ) :
    ((m = 0 → (if 1 < m then "super effective"
      else if m < 1 ∧ 0 < m then "not very effective"
      else if m = 0 then "no effect" else "neutral") = "no effect") ∧
     (0 < m → m < 1 → (if 1 < m then "super effective"
      else if m < 1 ∧ 0 < m then "not very effective"
      else if m = 0 then "no effect" else "neutral") = "not very effective") ∧
     (1 < m → (if 1 < m then "super effective"
      else if m < 1 ∧ 0 < m then "not very effective"
      else if m = 0 then "no effect" else "neutral") = "super effective") ∧
     (m = 1 → (if 1 < m then "super effective"
      else if m < 1 ∧ 0 < m then "not very effective"
      else if m = 0 then "no effect" else "neutral") = "neutral")) := by
  refine ⟨?_, ?_, ?_, ?_⟩
  · intro h
    subst h
    norm_num
  · intro h0 h1
    rw [if_neg (by linarith), if_pos ⟨h1, h0⟩]
  · intro h
    rw [if_pos h]
  · intro h
    subst h
    norm_num

lemma lookup_eq_some_of_mem {l : List (String × Int)} {k : String} {v : Int}
    (hnd : (l.map Prod.fst).Nodup) (h : (k, v) ∈ l) : l.lookup k = some v := by
  induction l with
  | nil => cases h
  | cons p t ih =>
    rcases p with ⟨a, b⟩
    rw [List.map_cons, List.nodup_cons] at hnd
    rcases List.mem_cons.mp h with he | hm
    · cases he
      simp [List.lookup_cons]
    · have hka : k ≠ a := by
        intro he
        exact hnd.1 (he ▸ List.mem_map.mpr ⟨(k, v), hm, rfl⟩)
      have hb : (k == a) = false := by simpa using hka
      rw [List.lookup_cons, hb]
      exact ih hnd.2 hm

lemma mem_of_lookup_eq_some {l : List (String × Int)} {k : String} {v : Int}
    (h : l.lookup k = some v) : (k, v) ∈ l := by
  induction l with
  | nil => simp at h
  | cons p t ih =>
    rcases p with ⟨a, b⟩
    by_cases hk : k = a
    · subst hk
      rw [List.lookup_cons] at h
      simp only [beq_self_eq_true] at h
      have : b = v := by simpa using h
      subst this
      exact List.mem_cons_self _ _
    · have hb : (k == a) = false := by simpa using hk
      rw [List.lookup_cons, hb] at h
      exact List.mem_cons_of_mem _ (ih h)

lemma value_unique {l : List (String × Int)} {k : String} {v w : Int}
    (hnd : (l.map Prod.fst).Nodup) (hv : (k, v) ∈ l) (hw : (k, w) ∈ l) : v = w := by
  have h1 := lookup_eq_some_of_mem hnd hv
  have h2 := lookup_eq_some_of_mem hnd hw
  rw [h1] at h2
  exact (Option.some.injEq _ _).mp h2

lemma mem_adv1_iff (s1 s2 : List (String × Int)) (k : String) :
    k ∈ (analyzeStatsComparison s1 s2).pokemon1_advantages ↔
      ∃ v1 v2, (k, v1) ∈ s1 ∧ s2.lookup k = some v2 ∧ v2 < v1 := by
  show k ∈ s1.filterMap _ ↔ _
  rw [List.mem_filterMap]
  constructor
  · rintro ⟨⟨k2, v⟩, hm, hf⟩
    cases hl : s2.lookup k2 with
    | none => simp only [hl] at hf; exact Option.noConfusion hf
    | some v2 =>
      simp only [hl] at hf
      by_cases hc : v2 < v
      · rw [if_pos hc] at hf
        have hk : k2 = k := by simpa using hf
        subst hk
        exact ⟨v, v2, hm, hl, hc⟩
      · rw [if_neg hc] at hf; cases hf
  · rintro ⟨v1, v2, hm, hl, hc⟩
    exact ⟨(k, v1), hm, by simp only [hl]; rw [if_pos hc]⟩

lemma mem_adv2_iff (s1 s2 : List (String × Int)) (k : String) :
    k ∈ (analyzeStatsComparison s1 s2).pokemon2_advantages ↔
      ∃ v1 v2, (k, v1) ∈ s1 ∧ s2.lookup k = some v2 ∧ v1 < v2 := by
  show k ∈ s1.filterMap _ ↔ _
  rw [List.mem_filterMap]
  constructor
  · rintro ⟨⟨k2, v⟩, hm, hf⟩
    cases hl : s2.lookup k2 with
    | none => simp only [hl] at hf; exact Option.noConfusion hf
    | some v2 =>
      simp only [hl] at hf
      by_cases hc : v < v2
      · rw [if_pos hc] at hf
        have hk : k2 = k := by simpa using hf
        subst hk
        exact ⟨v, v2, hm, hl, hc⟩
      · rw [if_neg hc] at hf; cases hf
  · rintro ⟨v1, v2, hm, hl, hc⟩
    exact ⟨(k, v1), hm, by simp only [hl]; rw [if_pos hc]⟩

lemma effectiveness_eq_label (a : String) (ds : List String) :
    (getTypeEffectiveness a ds).effectiveness =
      (if 1 < (getTypeEffectiveness a ds).multiplier then "super effective"
       else if (getTypeEffectiveness a ds).multiplier < 1 ∧
           0 < (getTypeEffectiveness a ds).multiplier then "not very effective"
       else if (getTypeEffectiveness a ds).multiplier = 0 then "no effect"
       else "neutral") := rfl

/-! Claim theorems. -/

/-- Claim C1: a classification whose confidence is below 0.7 is routed to
the research handler regardless of the returned category. -/
theorem route_low_confidence_to_research (c : Classification)
    (h : c.confidence < 7/10) :
    routeClassification c = Category.pokemon_research := by
  unfold routeClassification
  rw [if_pos h]

/-- Witness for claim C1 at the concrete classification of the claim:
category battle_analysis with confidence 0.5 and two extracted names is
routed to research, not battle analysis. -/
theorem route_low_confidence_to_research_witness :
    routeClassification ⟨Category.battle_analysis, ["pikachu", "charizard"], 1/2⟩
        = Category.pokemon_research ∧
    Category.pokemon_research ≠ Category.battle_analysis :=
  ⟨route_low_confidence_to_research ⟨Category.battle_analysis, ["pikachu", "charizard"], 1/2⟩
      (by norm_num), by decide⟩

/-- Claim C3: a failed classification call is recovered locally at the
router boundary by routing to research; routeOutcome is a total function
into the categories, so no failure value reaches the caller. -/
theorem route_classification_failure_to_research (e : String) :
    routeOutcome (Except.error e) = Category.pokemon_research := rfl

/-- Claim C5, counterexample: on the question Tell me about Eevee the
extractor returns the two capitalized tokens, because the
sentence-initial Tell is itself a capitalized token, so the result is not
the empty sequence the claim states. -/
theorem extract_pair_eevee_not_empty :
    extractPokemonNames "Tell me about Eevee" = ["tell", "eevee"] ∧
    extractPokemonNames "Tell me about Eevee" ≠ [] := by
  constructor <;> decide

/-- Claim C5, amended: the first example extracts through the battle
patterns as stated; on the second example no battle pattern matches but
the capitalization fallback finds the two tokens Tell and Eevee and
returns them lowercased, instead of the empty sequence. -/
theorem extract_pair_examples :
    extractPokemonNames "Would Pikachu beat Charizard?" = ["pikachu", "charizard"] ∧
    extractPokemonNames "Tell me about Eevee" = ["tell", "eevee"] := by
  constructor <;> decide

/-- Claim C6, counterexample: with names pikachu and charizard and a
reply naming no winner, the returned winner is the sentinel sentence of
the source, which is not one of the two names and not the string
undetermined. -/
theorem winner_not_undetermined_string :
    (determineWinner "pikachu" "charizard" "it is a close call").winner ≠ "pikachu" ∧
    (determineWinner "pikachu" "charizard" "it is a close call").winner ≠ "charizard" ∧
    (determineWinner "pikachu" "charizard" "it is a close call").winner ≠ "undetermined" ∧
    (determineWinner "pikachu" "charizard" "it is a close call").winner
        = cantDetermineSentinel := by
  refine ⟨?_, ?_, ?_, ?_⟩ <;> decide

/-- Claim C6, amended: the winner is always one of the two input names or
the sentinel sentence of the source; a name passing the mention test is
declared winner with the first name checked first; when neither name
passes the test the sentinel is returned, never one of the two sides. -/
theorem winner_name_or_sentinel (p1 p2 t : String) :
    ((determineWinner p1 p2 t).winner = p1 ∨ (determineWinner p1 p2 t).winner = p2 ∨
        (determineWinner p1 p2 t).winner = cantDetermineSentinel) ∧
    (mentionedWithWin t p1 = true → (determineWinner p1 p2 t).winner = p1) ∧
    (mentionedWithWin t p1 = false → mentionedWithWin t p2 = true →
        (determineWinner p1 p2 t).winner = p2) ∧
    (mentionedWithWin t p1 = false → mentionedWithWin t p2 = false →
        (determineWinner p1 p2 t).winner = cantDetermineSentinel) := by
  unfold determineWinner
  by_cases h1 : mentionedWithWin t p1 <;> by_cases h2 : mentionedWithWin t p2 <;>
    simp [h1, h2]

/-- Witness for claim C6 at a concrete ambiguous input: the sentinel is
returned. -/
theorem winner_name_or_sentinel_witness :
    (determineWinner "pikachu" "charizard" "neither can prevail").winner
        = cantDetermineSentinel :=
  (winner_name_or_sentinel "pikachu" "charizard" "neither can prevail").2.2.2
    (by decide) (by decide)

/-- Claim C7: evaluation of the embedded chart at the failing inputs.
The normal row of the source stores the defensive relations of the type,
so a normal attack is reported super effective against fighting and
neutral against rock and steel, while the canonical mainline chart gives
1, 0.5 and 0.5 for these pairs. -/
theorem normal_row_defensive_values :
    (getTypeEffectiveness "normal" ["fighting"]).multiplier = 2 ∧
    (getTypeEffectiveness "normal" ["fighting"]).effectiveness = "super effective" ∧
    (getTypeEffectiveness "normal" ["rock"]).multiplier = 1 ∧
    (getTypeEffectiveness "normal" ["rock"]).effectiveness = "neutral" ∧
    (getTypeEffectiveness "normal" ["steel"]).multiplier = 1 := by
  have hf : (getTypeEffectiveness "normal" ["fighting"]).multiplier = 1 * 2 := rfl
  have hr : (getTypeEffectiveness "normal" ["rock"]).multiplier = 1 := rfl
  have hs : (getTypeEffectiveness "normal" ["steel"]).multiplier = 1 := rfl
  refine ⟨by rw [hf]; norm_num, ?_, hr, ?_, hs⟩
  · rw [effectiveness_eq_label, hf]
    norm_num
  · rw [effectiveness_eq_label, hr]
    norm_num

/-- Claim C10: whenever the reply text contains the first name and the
substring win, both case-insensitively, the first input name is declared
winner, regardless of the second name. -/
theorem first_name_precedence (p1 p2 t : String)
    (h : mentionedWithWin t p1 = true) :
    (determineWinner p1 p2 t).winner = p1 := by
  unfold determineWinner
  simp [h]

/-- Witness for claim C10 at a reply mentioning both names together with
a winning term: the first input name takes precedence. -/
theorem first_name_precedence_witness :
    mentionedWithWin "Charizard is strong but Pikachu wins" "charizard" = true ∧
    (determineWinner "pikachu" "charizard" "Charizard is strong but Pikachu wins").winner
        = "pikachu" :=
  ⟨by decide, first_name_precedence "pikachu" "charizard"
      "Charizard is strong but Pikachu wins" (by decide)⟩

/-- Claim C2: the battle handler is reached only when at least two names
were extracted; a battle question with fewer than two extracted names is
routed to research; a data question with no extracted name is routed to
research; the data handler is reached only with a nonempty name; and the
battle analysis node itself redirects to research when handed fewer than
two names. -/
theorem router_requires_names (q : String) :
    (classifyQuestion q = NextStep.battle_analysis →
        2 ≤ (extractPokemonNames q).length) ∧
    (checkPokemonBattle q = true → (extractPokemonNames q).length < 2 →
        classifyQuestion q = NextStep.pokemon_research) ∧
    (checkPokemonBattle q = false → checkPokemonData q = true →
        extractPokemonName q = "" → classifyQuestion q = NextStep.pokemon_research) ∧
    (classifyQuestion q = NextStep.pokemon_data → extractPokemonName q ≠ "") ∧
    (∀ names : List String, names.length < 2 →
        battleAnalysisStep names = BattleStep.fallback_research) := by
  have hstep : ∀ names : List String, names.length < 2 →
      battleAnalysisStep names = BattleStep.fallback_research := by
    intro names h
    match names with
    | [] => rfl
    | [_] => rfl
    | _ :: _ :: _ =>
      simp only [List.length_cons] at h
      omega
  refine ⟨?_, ?_, ?_, ?_, hstep⟩
  · intro h
    unfold classifyQuestion at h
    by_cases hb : checkPokemonBattle q
    · by_cases hlen : 2 ≤ (extractPokemonNames q).length
      · exact hlen
      · simp [hb, hlen] at h
    · by_cases hd : checkPokemonData q
      · by_cases hnm : extractPokemonName q = "" <;> simp [hb, hd, hnm] at h
      · by_cases hq : checkPokemonQuestion q <;> simp [hb, hd, hq] at h
  · intro hb hlen
    have h2 : ¬ 2 ≤ (extractPokemonNames q).length := by omega
    unfold classifyQuestion
    simp [hb, h2]
  · intro hb hd hnm
    unfold classifyQuestion
    simp [hb, hd, hnm]
  · intro h hnm
    unfold classifyQuestion at h
    by_cases hb : checkPokemonBattle q
    · by_cases hlen : 2 ≤ (extractPokemonNames q).length <;> simp [hb, hlen] at h
    · by_cases hd : checkPokemonData q
      · simp [hb, hd, hnm] at h
      · by_cases hq : checkPokemonQuestion q <;> simp [hb, hd, hq] at h

/-- Witness for claim C2 at two concrete questions: a battle question
from which no names can be extracted is routed to research, and a data
question with no extractable name is routed to research. -/
theorem router_requires_names_witness :
    checkPokemonBattle "who would win" = true ∧
    (extractPokemonNames "who would win").length < 2 ∧
    classifyQuestion "who would win" = NextStep.pokemon_research ∧
    checkPokemonBattle "how tall is pikachu" = false ∧
    checkPokemonData "how tall is pikachu" = true ∧
    extractPokemonName "how tall is pikachu" = "" ∧
    classifyQuestion "how tall is pikachu" = NextStep.pokemon_research ∧
    battleAnalysisStep ["pikachu"] = BattleStep.fallback_research :=
  ⟨by decide, by decide,
   (router_requires_names "who would win").2.1 (by decide) (by decide),
   by decide, by decide, by decide,
   (router_requires_names "how tall is pikachu").2.2.1 (by decide) (by decide) (by decide),
   (router_requires_names "x").2.2.2.2 ["pikachu"] (by decide)⟩

/-- Claim C4: the normalization applied to a handler result: a result
with both a winner and a reasoning field synthesizes the battle sentence
with the reasoning passed through verbatim; otherwise a result with an
answer field passes it through unchanged; otherwise the result is
stringified into the answer and the reasoning is left empty. -/
theorem normalize_result_branches (r : HandlerResult) :
    (∀ w rsn, getField r "winner" = some w → getField r "reasoning" = some rsn →
        normalizeResult r = ⟨w ++ " would win the battle.", some rsn⟩) ∧
    ((getField r "winner" = none ∨ getField r "reasoning" = none) →
      ∀ a, getField r "answer" = some a →
        normalizeResult r = ⟨a, getField r "reasoning"⟩) ∧
    ((getField r "winner" = none ∨ getField r "reasoning" = none) →
      getField r "answer" = none →
        normalizeResult r = ⟨stringifyResult r, none⟩) := by
  unfold normalizeResult
  cases hw : getField r "winner" <;> cases hr : getField r "reasoning" <;>
    cases ha : getField r "answer" <;> simp_all

/-- Witness for claim C4 at three concrete handler results, one per
branch of the normalization. -/
theorem normalize_result_branches_witness :
    normalizeResult ⟨[("winner", "pikachu"), ("reasoning", "speed wins")]⟩
        = ⟨"pikachu" ++ " would win the battle.", some "speed wins"⟩ ∧
    normalizeResult ⟨[("answer", "yes"), ("reasoning", "because")]⟩
        = ⟨"yes", getField ⟨[("answer", "yes"), ("reasoning", "because")]⟩ "reasoning"⟩ ∧
    normalizeResult ⟨[("other", "x")]⟩
        = ⟨stringifyResult ⟨[("other", "x")]⟩, none⟩ :=
  ⟨(normalize_result_branches ⟨[("winner", "pikachu"), ("reasoning", "speed wins")]⟩).1
      "pikachu" "speed wins" rfl rfl,
   (normalize_result_branches ⟨[("answer", "yes"), ("reasoning", "because")]⟩).2.1
      (Or.inl rfl) "yes" rfl,
   (normalize_result_branches ⟨[("other", "x")]⟩).2.2 (Or.inl rfl) rfl⟩

/-- Claim C8: the multiplier is the product over the defending types of
the chart factor for the attacking and defending pair, with absent pairs
contributing the factor 1, and the label follows the documented
thresholds on the multiplier. -/
theorem effectiveness_product_label (a : String) (ds : List String) :
    (getTypeEffectiveness a ds).multiplier = (ds.map (chartFactor a)).prod ∧
    ((getTypeEffectiveness a ds).multiplier = 0 →
        (getTypeEffectiveness a ds).effectiveness = "no effect") ∧
    (0 < (getTypeEffectiveness a ds).multiplier →
        (getTypeEffectiveness a ds).multiplier < 1 →
        (getTypeEffectiveness a ds).effectiveness = "not very effective") ∧
    (1 < (getTypeEffectiveness a ds).multiplier →
        (getTypeEffectiveness a ds).effectiveness = "super effective") ∧
    ((getTypeEffectiveness a ds).multiplier = 1 →
        (getTypeEffectiveness a ds).effectiveness = "neutral") := by
  refine ⟨?_, ?_, ?_, ?_, ?_⟩
  · show (ds.map lowerStr).foldl
        (applyLookup ((effectivenessChart.lookup (lowerStr a)).getD [])) 1 = _
    rw [foldl_applyLookup, one_mul, List.map_map]
    rfl
  · rw [effectiveness_eq_label]
    exact (label_thresholds _).1
  · rw [effectiveness_eq_label]
    exact (label_thresholds _).2.1
  · rw [effectiveness_eq_label]
    exact (label_thresholds _).2.2.1
  · rw [effectiveness_eq_label]
    exact (label_thresholds _).2.2.2

/-- Witness for claim C8 at the water against fire and rock example: the
multiplier is the chart product and the label is super effective. -/
theorem effectiveness_product_label_witness :
    (getTypeEffectiveness "Water" ["Fire", "Rock"]).multiplier
        = (["Fire", "Rock"].map (chartFactor "Water")).prod ∧
    (getTypeEffectiveness "Water" ["Fire", "Rock"]).effectiveness = "super effective" := by
  have hm : (getTypeEffectiveness "Water" ["Fire", "Rock"]).multiplier = 1 * 2 * 2 := rfl
  exact ⟨(effectiveness_product_label "Water" ["Fire", "Rock"]).1,
    (effectiveness_product_label "Water" ["Fire", "Rock"]).2.2.2.1 (by rw [hm]; norm_num)⟩

/-- Claim C9, counterexample: on the inputs of the claim the
speed_advantage field holds the string pokemon1, not the string a, and
not b or none either. -/
theorem speed_advantage_not_a :
    (analyzeStatsComparison [("hp", 35), ("attack", 55), ("speed", 90)]
        [("hp", 78), ("attack", 84), ("speed", 78)]).speed_advantage ≠ some "a" ∧
    (analyzeStatsComparison [("hp", 35), ("attack", 55), ("speed", 90)]
        [("hp", 78), ("attack", 84), ("speed", 78)]).speed_advantage ≠ some "b" ∧
    (analyzeStatsComparison [("hp", 35), ("attack", 55), ("speed", 90)]
        [("hp", 78), ("attack", 84), ("speed", 78)]).speed_advantage ≠ none ∧
    (analyzeStatsComparison [("hp", 35), ("attack", 55), ("speed", 90)]
        [("hp", 78), ("attack", 84), ("speed", 78)]).speed_advantage = some "pokemon1" := by
  refine ⟨?_, ?_, ?_, ?_⟩ <;> decide

/-- Claim C9, amended: the totals are the sums of the values of each
mapping; every stat key present in both mappings is assigned to the side
with the strictly greater value, ties and one-sided keys to neither; the
speed_advantage field is one of pokemon1, pokemon2 or none; and on the
inputs of the claim the totals are 180 and 240, the speed advantage is
pokemon1 and the second advantage list contains hp and attack. -/
theorem stats_comparison_contract (s1 s2 : List (String × Int))
    (h1 : (s1.map Prod.fst).Nodup) (h2 : (s2.map Prod.fst).Nodup) :
    (analyzeStatsComparison s1 s2).pokemon1_total = (s1.map Prod.snd).sum ∧
    (analyzeStatsComparison s1 s2).pokemon2_total = (s2.map Prod.snd).sum ∧
    (∀ k v1 v2, (k, v1) ∈ s1 → (k, v2) ∈ s2 →
        (k ∈ (analyzeStatsComparison s1 s2).pokemon1_advantages ↔ v2 < v1)) ∧
    (∀ k v1 v2, (k, v1) ∈ s1 → (k, v2) ∈ s2 →
        (k ∈ (analyzeStatsComparison s1 s2).pokemon2_advantages ↔ v1 < v2)) ∧
    (∀ k, (k ∈ (analyzeStatsComparison s1 s2).pokemon1_advantages ∨
           k ∈ (analyzeStatsComparison s1 s2).pokemon2_advantages) →
        k ∈ s1.map Prod.fst ∧ k ∈ s2.map Prod.fst) ∧
    ((analyzeStatsComparison s1 s2).speed_advantage = some "pokemon1" ∨
     (analyzeStatsComparison s1 s2).speed_advantage = some "pokemon2" ∨
     (analyzeStatsComparison s1 s2).speed_advantage = none) ∧
    (analyzeStatsComparison [("hp", 35), ("attack", 55), ("speed", 90)]
        [("hp", 78), ("attack", 84), ("speed", 78)]).pokemon1_total = 180 ∧
    (analyzeStatsComparison [("hp", 35), ("attack", 55), ("speed", 90)]
        [("hp", 78), ("attack", 84), ("speed", 78)]).pokemon2_total = 240 ∧
    (analyzeStatsComparison [("hp", 35), ("attack", 55), ("speed", 90)]
        [("hp", 78), ("attack", 84), ("speed", 78)]).speed_advantage = some "pokemon1" ∧
    "hp" ∈ (analyzeStatsComparison [("hp", 35), ("attack", 55), ("speed", 90)]
        [("hp", 78), ("attack", 84), ("speed", 78)]).pokemon2_advantages ∧
    "attack" ∈ (analyzeStatsComparison [("hp", 35), ("attack", 55), ("speed", 90)]
        [("hp", 78), ("attack", 84), ("speed", 78)]).pokemon2_advantages := by
  refine ⟨rfl, rfl, ?_, ?_, ?_, ?_, by decide, by decide, by decide, by decide, by decide⟩
  · intro k v1 v2 hm1 hm2
    rw [mem_adv1_iff]
    constructor
    · rintro ⟨w1, w2, hw1, hw2, hc⟩
      have he1 : w1 = v1 := value_unique h1 hw1 hm1
      have he2 : w2 = v2 := by
        have := lookup_eq_some_of_mem h2 hm2
        rw [hw2] at this
        exact (Option.some.injEq _ _).mp this
      rw [he1, he2] at hc
      exact hc
    · intro hc
      exact ⟨v1, v2, hm1, lookup_eq_some_of_mem h2 hm2, hc⟩
  · intro k v1 v2 hm1 hm2
    rw [mem_adv2_iff]
    constructor
    · rintro ⟨w1, w2, hw1, hw2, hc⟩
      have he1 : w1 = v1 := value_unique h1 hw1 hm1
      have he2 : w2 = v2 := by
        have := lookup_eq_some_of_mem h2 hm2
        rw [hw2] at this
        exact (Option.some.injEq _ _).mp this
      rw [he1, he2] at hc
      exact hc
    · intro hc
      exact ⟨v1, v2, hm1, lookup_eq_some_of_mem h2 hm2, hc⟩
  · intro k hk
    rcases hk with hk | hk
    · rcases (mem_adv1_iff s1 s2 k).mp hk with ⟨v1, v2, hm1, hl, _⟩
      exact ⟨List.mem_map.mpr ⟨(k, v1), hm1, rfl⟩,
        List.mem_map.mpr ⟨(k, v2), mem_of_lookup_eq_some hl, rfl⟩⟩
    · rcases (mem_adv2_iff s1 s2 k).mp hk with ⟨v1, v2, hm1, hl, _⟩
      exact ⟨List.mem_map.mpr ⟨(k, v1), hm1, rfl⟩,
        List.mem_map.mpr ⟨(k, v2), mem_of_lookup_eq_some hl, rfl⟩⟩
  · cases hl1 : s1.lookup "speed" with
    | none =>
      right; right
      simp [analyzeStatsComparison, hl1]
    | some sp1 =>
      cases hl2 : s2.lookup "speed" with
      | none =>
        right; right
        simp [analyzeStatsComparison, hl1, hl2]
      | some sp2 =>
        by_cases hc : sp2 < sp1
        · left
          simp [analyzeStatsComparison, hl1, hl2, hc]
        · by_cases hc2 : sp1 < sp2
          · right; left
            simp [analyzeStatsComparison, hl1, hl2, hc, hc2]
          · right; right
            simp [analyzeStatsComparison, hl1, hl2, hc, hc2]

/-- Witness for claim C9 at the concrete inputs of the claim. -/
theorem stats_comparison_contract_witness :
    (analyzeStatsComparison [("hp", 35), ("attack", 55), ("speed", 90)]
        [("hp", 78), ("attack", 84), ("speed", 78)]).pokemon1_total = 180 ∧
    (analyzeStatsComparison [("hp", 35), ("attack", 55), ("speed", 90)]
        [("hp", 78), ("attack", 84), ("speed", 78)]).pokemon2_total = 240 ∧
    (analyzeStatsComparison [("hp", 35), ("attack", 55), ("speed", 90)]
        [("hp", 78), ("attack", 84), ("speed", 78)]).speed_advantage = some "pokemon1" ∧
    "hp" ∈ (analyzeStatsComparison [("hp", 35), ("attack", 55), ("speed", 90)]
        [("hp", 78), ("attack", 84), ("speed", 78)]).pokemon2_advantages ∧
    "attack" ∈ (analyzeStatsComparison [("hp", 35), ("attack", 55), ("speed", 90)]
        [("hp", 78), ("attack", 84), ("speed", 78)]).pokemon2_advantages :=
  ⟨(stats_comparison_contract [("hp", 35), ("attack", 55), ("speed", 90)]
      [("hp", 78), ("attack", 84), ("speed", 78)] (by decide) (by decide)).2.2.2.2.2.2.1,
   (stats_comparison_contract [("hp", 35), ("attack", 55), ("speed", 90)]
      [("hp", 78), ("attack", 84), ("speed", 78)] (by decide) (by decide)).2.2.2.2.2.2.2.1,
   (stats_comparison_contract [("hp", 35), ("attack", 55), ("speed", 90)]
      [("hp", 78), ("attack", 84), ("speed", 78)] (by decide) (by decide)).2.2.2.2.2.2.2.2.1,
   (stats_comparison_contract [("hp", 35), ("attack", 55), ("speed", 90)]
      [("hp", 78), ("attack", 84), ("speed", 78)] (by decide) (by decide)).2.2.2.2.2.2.2.2.2.1,
   (stats_comparison_contract [("hp", 35), ("attack", 55), ("speed", 90)]
      [("hp", 78), ("attack", 84), ("speed", 78)] (by decide) (by decide)).2.2.2.2.2.2.2.2.2.2⟩

end Pokemon
